import Mathlib

/-!
Verification of the ngen-cal calibration core: the parameter-table
construction, watershed schema detection, calibration-target construction,
realization validation, and the t-route output extraction / temporal
alignment pipeline, shallowly embedded from
`src/python/ngen_cal/src/ngen/cal/ngen.py` and
`src/python/ngen_cal/src/ngen/cal/ngen_hooks/ngen_output.py`.

Numbers that the Python code handles as floats are modelled as rationals
(the operations involved - sums, quotients of small integers, floor
division - are exact at the scales the code asserts about); timestamps are
modelled as seconds (Nat).
-/

deriving instance DecidableEq for Except

namespace NgenCal

/-! ## Parameter table (`_params_as_df`, ngen.py lines 43-83)

A `Parameter` (from `ngen.cal.parameter`, declared with name / min / max /
init fields per the parameter specification) is flattened into a pandas
DataFrame row.  `_params_as_df` (no-name form) builds one DataFrame per
model, adds a `model` column, renames `name` to `param`, concatenates,
copies the `param` column into `p` and uses `p` as the index.  A row is
modelled with its index value `p` as an explicit field. -/

structure Parameter where
  name : String
  min : Rat
  max : Rat
  init : Rat
deriving DecidableEq, Repr

structure ParamRow where
  /-- the DataFrame index value (column `p`) -/
  p : String
  param : String
  min : Rat
  max : Rat
  init : Rat
  model : String
deriving DecidableEq, Repr

/-- One model's block of rows: `pd.DataFrame([s.__dict__ for s in v])`
with `df[model] = k` and `name` renamed to `param`. -/
def paramRowsOf (k : String) (v : List Parameter) : List ParamRow :=
  v.map fun s => { p := "", param := s.name, min := s.min, max := s.max, init := s.init, model := k }

/-- `_params_as_df(params)` (no `name` argument): concatenate the per-model
blocks in mapping order, then `df[p] = df[param]` and
`df.set_index(p)`. -/
def params_as_df (params : List (String × List Parameter)) : List ParamRow :=
  ((params.map fun kv => paramRowsOf kv.1 kv.2).flatten).map fun r => { r with p := r.param }

/-- `_params_as_df(params, name)`: the single-model block
`params.get(name, [])` with `model = name`, indexed by `p` when non-empty
(an empty block has no rows either way). -/
def params_as_df_named (params : List (String × List Parameter)) (name : String) :
    List ParamRow :=
  (paramRowsOf name ((List.lookup name params).getD [])).map fun r => { r with p := r.param }

/-- The formulation of `realization.formulations[0].params`: a `MultiBMI`
composite carrying its module model names, or a single-model node. -/
inductive Formulation where
  | multiBMI (modules : List String)
  | single (model_name : String)
deriving DecidableEq, Repr

/-- `_map_params_to_realization` (lines 68-83): per-module single-model
blocks concatenated for a composite, one block for a single model. -/
def map_params_to_realization (params : List (String × List Parameter)) (f : Formulation) :
    List ParamRow :=
  match f with
  | .multiBMI modules => (modules.map fun m => params_as_df_named params m).flatten
  | .single n => params_as_df_named params n

/-! ## Hydrofabric schema detection (`NgenBase._hf_version`, ngen.py lines 169-192)

The sqlite query collects the set of table names LIKE `flow%`; detection
takes that set (modelled as the `Finset` of the listed names).  Fewer than
two names fails the assert; a set equal to one of the three known pairs
yields the matching generation; anything else raises `KeyError`. -/

inductive HFVersion where
  | HF_2_0
  | HF_2_1
  | HF_2_2
deriving DecidableEq, Repr

/-- The branching of `NgenBase._hf_version` on the collected name set. -/
def hf_version_of (values : Finset String) : Except String HFVersion :=
  if values.card < 2 then
    .error "expect at least two table names that start with flow"
  else if values = {"flowpaths", "flowpath_attributes"} then
    .ok .HF_2_0
  else if values = {"flowlines", "flowpath-attributes"} then
    .ok .HF_2_1
  else if values = {"flowpaths", "flowpath-attributes"} then
    .ok .HF_2_2
  else
    .error "could not determine HF version"

/-- `NgenBase._hf_version`, acting on the fetched table-name list
(`values = set(...)`). -/
def hf_version (tables : List String) : Except String HFVersion :=
  hf_version_of tables.toFinset

/-! ## String helpers mirroring the Python primitives used by the code -/

/-- The apostrophe character (used by the csv-v1 header literal). -/
def squoteChar : Char := Char.ofNat 39

/-- Python `s.startswith(p)`, on the underlying character lists. -/
def strStarts (p s : String) : Bool := p.data.isPrefixOf s.data

/-- `sub in l` on character lists (Python substring test). -/
def listHasSub (sub : List Char) : List Char → Bool
  | [] => sub.isEmpty
  | c :: rest => sub.isPrefixOf (c :: rest) || listHasSub sub rest

/-- Python `sub in s`. -/
def strHasSub (s sub : String) : Bool := listHasSub sub.data s.data

/-- Python `s.lower()` (ASCII case folding suffices here). -/
def strLower (s : String) : String := String.mk (s.data.map Char.toLower)

/-- The final path component (the part after the last slash). -/
def lastComponent (cs : List Char) : List Char :=
  cs.foldl (fun acc c => if c = '/' then [] else acc ++ [c]) []

/-- `pathlib.Path(p).suffix`: the extension (with dot) of the final path
component; empty when the final component has no dot, starts with its only
dot, or ends with its last dot. -/
def pathSuffix (p : String) : String :=
  let cs := lastComponent p.data
  match (cs.enum.filter fun x => x.2 = '.').getLast? with
  | some (i, _) => if 0 < i ∧ i < cs.length - 1 then String.mk (cs.drop i) else ""
  | none => ""

/-- Python `str.replace` on character lists: replace every non-overlapping
occurrence of the pattern `p0 :: prest`, scanning left to right.  The
fuel argument (instantiated with the list length, an upper bound on the
number of scanning steps) keeps the recursion structural. -/
def replaceFuel (p0 : Char) (prest sub : List Char) : Nat → List Char → List Char
  | 0, l => l
  | _, [] => []
  | fuel + 1, c :: rest =>
    if c = p0 ∧ prest.isPrefixOf rest then
      sub ++ replaceFuel p0 prest sub fuel (rest.drop prest.length)
    else
      c :: replaceFuel p0 prest sub fuel rest

/-- Python `s.replace(pat, sub)`. -/
def strReplace (s pat sub : String) : String :=
  match pat.data with
  | [] => s
  | p0 :: prest => String.mk (replaceFuel p0 prest sub.data s.data.length s.data)

/-! ## Discharge time series (pandas `pd.Series` with datetime index)

A series is a list of (timestamp in seconds, optional value) pairs; a
`none` value is a NaN cell.  Addition aligns on the sorted union of the
two indexes, as pandas `+` does, producing NaN wherever either operand is
missing or NaN. -/

abbrev Series := List (Nat × Option Rat)

/-- Index lookup: `none` = timestamp absent, `some none` = NaN cell. -/
def seriesLookup (s : Series) (t : Nat) : Option (Option Rat) :=
  (s.find? fun p => p.1 == t).map Prod.snd

/-- Insert a timestamp into a sorted duplicate-free timestamp list. -/
def tsInsert (t : Nat) : List Nat → List Nat
  | [] => [t]
  | x :: xs => if t < x then t :: x :: xs else if t = x then x :: xs else x :: tsInsert t xs

/-- Sorted union of two timestamp lists (the pandas index union). -/
def tsUnion (xs ys : List Nat) : List Nat := (xs ++ ys).foldr tsInsert []

/-- Cell addition under pandas alignment: a sum only when both sides hold a
value, NaN otherwise. -/
def combineVals : Option (Option Rat) → Option (Option Rat) → Option Rat
  | some (some x), some (some y) => some (x + y)
  | _, _ => none

/-- Alignment of two lookup results (both absent keeps the timestamp
absent; otherwise the cell is `combineVals` of the two sides). -/
def combineLookup : Option (Option Rat) → Option (Option Rat) → Option (Option Rat)
  | none, none => none
  | x, y => some (combineVals x y)

/-- pandas `a + b` for two series. -/
def seriesAdd (a b : Series) : Series :=
  (tsUnion (a.map Prod.fst) (b.map Prod.fst)).map fun t =>
    (t, combineVals (seriesLookup a t) (seriesLookup b t))

/-- pandas `ds.loc[lo:hi]` on a datetime index: the closed interval. -/
def sliceClosed (lo hi : Nat) (s : Series) : Series :=
  s.filter fun p => decide (lo ≤ p.1 ∧ p.1 ≤ hi)

/-- First non-NaN value of a bucket (groupby/resample `first`). -/
def firstSomeVal : Series → Option Rat
  | [] => none
  | (_, some v) :: _ => some v
  | (_, none) :: rest => firstSomeVal rest

/-- pandas `ds.resample(1h).first()`: hourly buckets from the first to the
last observed hour, labelled by the bucket start, each holding the first
non-NaN sample of the bucket (NaN when the bucket is empty). -/
def resample1hFirst (s : Series) : Series :=
  match s with
  | [] => []
  | p :: _ =>
    let hours := s.map fun q => q.1 / 3600
    let h0 := hours.foldl Nat.min (p.1 / 3600)
    let h1 := hours.foldl Nat.max (p.1 / 3600)
    (List.range (h1 - h0 + 1)).map fun k =>
      ((h0 + k) * 3600, firstSomeVal (s.filter fun q => q.1 / 3600 == h0 + k))

/-! ## Watershed graph objects (hypy `Catchment` / `Nexus`) -/

structure Catchment where
  id : String
deriving DecidableEq, Repr

structure Nexus where
  id : String
  /-- the optional NWIS hydro location, carried as its gauge/station id -/
  location : Option String
  contributing_catchments : List Catchment
deriving DecidableEq, Repr

/-! ## t-route output extraction
(`TrouteOutput` in ngen_hooks/ngen_output.py)

The parsed per-file lookup closure (`_NgenCalModelOutputFn`) is modelled
as a function from the integer waterbody id to a series or an error (the
csv-v1 handler's `df.loc[id, ...]` raises on a missing id; the others
return an empty series). -/

abbrev OutputFn := Nat → Except String Series

/-- Decimal value of an all-digit character list. -/
def charsToNat (cs : List Char) : Nat :=
  cs.foldl (fun a c => a * 10 + (c.toNat - 48)) 0

/-- Python `int(s)` restricted to plain decimals: a non-empty digit string
parses, anything else raises `ValueError`. -/
def strToNat (s : String) : Option Nat :=
  let cs := s.data
  if cs ≠ [] ∧ cs.all (fun c => c.isDigit) then some (charsToNat cs) else none

/-- Python `int(id[len(cat-):])` / `int(id[len(nex-):])`: drop the 4-char
prefix and parse the decimal (raising `ValueError` on failure). -/
def idSuffixInt (id : String) : Except String Nat :=
  match strToNat (String.mk (id.data.drop 4)) with
  | some n => .ok n
  | none => .error ("invalid literal for int: " ++ String.mk (id.data.drop 4))

def noDataMsg (i : Nat) : String := "no data for " ++ toString i

/-- The `for catchment in nexus.contributing_catchments[1:]` summation
loop of `TrouteOutput.get_output` (scenario 1), threading the accumulated
series. -/
def sumContributing (fn : OutputFn) (acc : Series) : List Catchment → Except String Series
  | [] => .ok acc
  | c :: rest => do
    let i ← idSuffixInt c.id
    let flows ← fn i
    if flows.isEmpty then .error (noDataMsg i)
    else sumContributing fn (seriesAdd acc flows) rest

/-- Scenario 1 of `TrouteOutput.get_output` (lines 125-137): per-catchment
aggregation over every contributing catchment, starting from
`contributing_catchments[0]` (an empty list raises `IndexError`). -/
def aggregateContributing (fn : OutputFn) : List Catchment → Except String Series
  | [] => .error "list index out of range"
  | c :: rest => do
    let i ← idSuffixInt c.id
    let ds ← fn i
    if ds.isEmpty then .error (noDataMsg i)
    else sumContributing fn ds rest

/-- Scenario 2 of `TrouteOutput.get_output` (lines 139-145): direct lookup
by the confluence point's own id. -/
def nexusDirect (fn : OutputFn) (nexus : Nexus) : Except String Series := do
  let i ← idSuffixInt nexus.id
  let ds ← fn i
  if ds.isEmpty then .error (noDataMsg i) else .ok ds

/-- The try/except cascade of `TrouteOutput.get_output` (lines 125-147):
on any scenario-1 failure retry scenario 2; when that also fails, re-raise
the scenario-1 error `e`. -/
def tryGetSeries (fn : OutputFn) (nexus : Nexus) : Except String Series :=
  match aggregateContributing fn nexus.contributing_catchments with
  | .ok ds => .ok ds
  | .error e =>
    match nexusDirect fn nexus with
    | .ok ds => .ok ds
    | .error _ => .error e

/-! ## Output-format detection (`_output_handler_factory`,
`_factory_handler_csv`) -/

inductive OutputHandlerKind where
  | csv_output_v1
  | stream_csv_v1
  | stream_csv_v2
  | netcdf_v1
  | parquet_v1
deriving DecidableEq, Repr

/-- The literal header start of csv-v1 output. -/
def csvV1Header : String :=
  String.mk [',', '"', '(', '0', ',', ' ', squoteChar, 'q', squoteChar, ')', '"']

/-- `TrouteOutput._factory_handler_csv` (lines 163-177): branch on the
first header line of the csv file. -/
def factory_handler_csv (filepath : String) (header : String) : Except String OutputHandlerKind :=
  if strStarts csvV1Header header then .ok .csv_output_v1
  else if strHasSub header "t0" then .ok .stream_csv_v1
  else if strHasSub header "current_time" then .ok .stream_csv_v2
  else .error ("could not parse t-route csv output file: " ++ filepath)

/-- `TrouteOutput._output_handler_factory` (lines 72-87): branch on the
lower-cased file extension, deferring to the csv header sniffing for
`.csv`.  `header` stands for the first line read from the file. -/
def output_handler_factory (path : String) (header : String) : Except String OutputHandlerKind :=
  let filetype := strLower (pathSuffix path)
  if filetype = ".csv" then factory_handler_csv path header
  else if filetype = ".nc" then .ok .netcdf_v1
  else if filetype = ".parquet" then .ok .parquet_v1
  else .error ("unsupported t-route output filetype: " ++ pathSuffix path)

/-! ## Realization time window and options -/

/-- `realization.time`: timestamps in seconds. -/
structure RTime where
  start_time : Nat
  end_time : Nat
  output_interval : Nat
deriving DecidableEq, Repr

/-- The slice of `NgenRealization` the modelled code touches. -/
structure NgenRealizationM where
  time : RTime
  output_root : Option String
deriving DecidableEq, Repr

structure EvalOptionsM where
  evaluation_start : Option Nat
  evaluation_stop : Option Nat
deriving DecidableEq, Repr

/-- The configured state of a `TrouteOutput` plugin at `get_output` time.
Filesystem facts (`Path.exists`) are carried as booleans. -/
structure TrouteOutputState where
  output_file : String
  output_file_present : Bool
  /-- `self._settings.validation_routing_output` when settings were given -/
  settings : Option String
  validation_present : Bool
  ngen_realization : NgenRealizationM
  eval_options : Option EvalOptionsM
  /-- result of `self._validation_options.evaluation_interval()` -/
  validation_options : Option (Nat × Nat)
deriving DecidableEq, Repr

/-- `TrouteOutput._sim_eval_interval` (lines 55-64). -/
def sim_eval_interval (st : TrouteOutputState) : Except String (Nat × Nat) :=
  match st.eval_options with
  | some eo =>
    match eo.evaluation_start with
    | some s =>
      match eo.evaluation_stop with
      | some e => .ok (s, e)
      | none => .error "assertion failed: evaluation stop required"
    | none => .ok (st.ngen_realization.time.start_time, st.ngen_realization.time.end_time)
  | none => .ok (st.ngen_realization.time.start_time, st.ngen_realization.time.end_time)

/-- `TrouteOutput._validation_eval_interval` (lines 66-70). -/
def validation_eval_interval (st : TrouteOutputState) : Except String (Nat × Nat) :=
  match st.validation_options with
  | none => sim_eval_interval st
  | some iv => .ok iv

/-- File / evaluation-interval selection at the top of
`TrouteOutput.get_output` (lines 97-114): validation output takes
precedence when configured and present; a missing simulation output file
yields `none` (no error). -/
def selectOutputFile (st : TrouteOutputState) : Option (String × Except String (Nat × Nat)) :=
  match st.settings with
  | some vpath =>
    if st.validation_present then some (vpath, validation_eval_interval st)
    else if st.output_file_present then some (st.output_file, sim_eval_interval st)
    else none
  | none =>
    if st.output_file_present then some (st.output_file, sim_eval_interval st)
    else none

/-- `TrouteOutput.get_output` (lines 91-161).  `mkFn` abstracts
`_output_handler_factory` applied to the selected file: the parsed
per-waterbody lookup closure, or the detection error.  The slice lower
bound re-reads the realization start time (line 158) while the upper
bound is the `end` of the selected evaluation interval. -/
def get_output (st : TrouteOutputState) (mkFn : String → Except String OutputFn)
    (nexus : Nexus) : Except String (Option Series) :=
  match selectOutputFile st with
  | none => .ok none
  | some (file, intervalE) => do
    let se ← intervalE
    let fn ← mkFn file
    let ds ← tryGetSeries fn nexus
    let startT := st.ngen_realization.time.start_time
    let dt := st.ngen_realization.time.output_interval
    .ok (some (resample1hFirst (sliceClosed (startT + dt) se.2 ds)))

/-! ## Temporal alignment (`_routing_timestep_size_s`, lines 239-251)

`ngen_n_ts` is `len(pd.date_range(start, end, freq=ngen_ts_s, inclusive=right))`,
i.e. the count of multiples of the output interval that fit strictly after
`start` and up to `end`.  The float true division and float `divmod` of
the Python code are modelled over the rationals (`divmod(a, b)` is
`(floor(a / b), a - b * floor(a / b))`, and a zero divisor raises). -/

/-- `ngen_n_ts`: the count of nominal output timesteps in the simulation
window (the `date_range` length). -/
def ngenNTs (time : RTime) : Nat :=
  (time.end_time - time.start_time) / time.output_interval

/-- `r_n_ts_in_ngen_ts`: routing rows per nominal output interval. -/
def routingRatio (routing_n_ts : Nat) (time : RTime) : Rat :=
  (routing_n_ts : Rat) / (ngenNTs time : Rat)

/-- The quotient of the float `divmod(ngen_ts_s, r_n_ts_in_ngen_ts)`. -/
def routingQuot (routing_n_ts : Nat) (time : RTime) : Int :=
  Int.floor ((time.output_interval : Rat) / routingRatio routing_n_ts time)

/-- The remainder of the float `divmod(ngen_ts_s, r_n_ts_in_ngen_ts)`. -/
def routingRem (routing_n_ts : Nat) (time : RTime) : Rat :=
  (time.output_interval : Rat) -
    (routingQuot routing_n_ts time : Rat) * routingRatio routing_n_ts time

def routing_timestep_size_s (routing_n_ts : Nat) (time : RTime) : Except String Int :=
  if ngenNTs time = 0 then .error "ZeroDivisionError"
  else if routingRatio routing_n_ts time = 0 then .error "ZeroDivisionError"
  else if routingRem routing_n_ts time = 0 then .ok (routingQuot routing_n_ts time)
  else .error "routing timestep is not evenly divisible by ngen_timesteps"

/-! ## Realization validation (`NgenBase._validate_model`, ngen.py lines
367-424) -/

def hydrofabricMsg : String :=
  "Must provide a geopackage input with the hydrofabric keyor proide catchment, nexus, and crosswalk geojson files."

def unsupportedOutputRootMsg : String :=
  "ngen realization `output_root` field is not supported by ngen.cal. will be removed in future; see https://github.com/NOAA-OWP/ngen-cal/issues/150"

/-- `NgenBase._verify_hydrofabric` (lines 374-400): raises `ValueError`
when neither a geopackage nor the three legacy geojson inputs are given. -/
def verify_hydrofabric (hydrofabric catchments nexus crosswalk : Option String) :
    Except String Unit :=
  if hydrofabric = none ∧ catchments = none ∧ nexus = none ∧ crosswalk = none then
    .error hydrofabricMsg
  else .ok ()

/-- `NgenBase._verify_ngen_realization` (lines 402-424): raises
`UnsupportedFeatureError` when `output_root` is set. -/
def verify_ngen_realization (realization : Option NgenRealizationM) : Except String Unit :=
  match realization with
  | none => .ok ()
  | some r =>
    match r.output_root with
    | some _ => .error unsupportedOutputRootMsg
    | none => .ok ()

/-- `NgenBase._validate_model` (lines 367-372): the root validator run at
model construction, checking the hydrofabric inputs then the realization. -/
def validate_model (hydrofabric catchments nexus crosswalk : Option String)
    (ngen_realization : Option NgenRealizationM) : Except String Unit := do
  verify_hydrofabric hydrofabric catchments nexus crosswalk
  verify_ngen_realization ngen_realization

/-! ## Calibration-target construction (`NgenIndependent.__init__` lines
525-601, `NgenUniform.__init__` lines 704-720)

The hydrofabric tables are modelled by their id columns: `divides` rows
carry the divide id and downstream nexus id (`toid`); `flowpaths` rows
carry the flowpath id and `toid`; the crosswalk is the id-to-gauge series.
The configuration-cloning / forcing-pattern work of
`NgenIndependent.__init__` (lines 537-558) touches neither the candidate
list nor the final length check and is not modelled. -/

structure DivideRow where
  divide_id : String
  toid : String
deriving DecidableEq, Repr

structure FlowpathRow where
  id : String
  toid : String
deriving DecidableEq, Repr

def singleNexusMsg : String :=
  "Currently only a single nexus in the hydrfabric can be gaged, set the eval_feature key to pick one."

/-- `divides.loc[id]` (first row with the given divide id, `KeyError`
modelled by `none`). -/
def divideLookup (divides : List DivideRow) (id : String) : Option DivideRow :=
  divides.find? fun d => d.divide_id == id

/-- `crosswalk[id]` / `self._x_walk.loc[id]`. -/
def xwalkLookup (xwalk : List (String × String)) (id : String) : Option String :=
  (xwalk.find? fun p => p.1 == id).map Prod.snd

/-- `_build_gauged_hyfeatures_nexuses` (lines 612-660): walk the crosswalk,
normalize the flowpath id to a divide id, group contributing catchments by
shared downstream nexus, and build one gauged `Nexus` per crosswalk entry
(missing divide or nexus rows raise `KeyError`). -/
def build_gauged_hyfeatures_nexuses (divides : List DivideRow) (nexuses : List String)
    (crosswalk : List (String × String)) : Except String (List Nexus) :=
  crosswalk.foldlM (fun acc wbGage => do
    let cat_id := strReplace wbGage.1 "wb" "cat"
    match divideLookup divides cat_id with
    | none => Except.error ("KeyError: " ++ cat_id)
    | some dr =>
      let nexus_id := dr.toid
      let contributing := (divides.filter fun d => d.toid == nexus_id).map
        fun d => Catchment.mk d.divide_id
      if nexus_id ∈ nexuses then
        pure (acc ++ [Nexus.mk nexus_id (some wbGage.2) contributing])
      else
        Except.error ("KeyError: " ++ nexus_id)) []

/-- Loop body of `_find_eval_feature` (lines 663-693). -/
def findEvalStep (ef : String) (cands : List Nexus) (n : Nexus) : Except String (List Nexus) :=
  if strStarts "nex-" ef ∧ ef = n.id then pure (cands ++ [n])
  else if strStarts "cat-" ef then
    if n.contributing_catchments.any fun c => c.id == ef then pure (cands ++ [n])
    else pure cands
  else
    match n.location with
    | some station => if ef = station then pure (cands ++ [n]) else pure cands
    | none => Except.error "assertion failed: hydro location is not an NWISLocation"

/-- `_find_eval_feature` (lines 663-693): a `wb-` feature is first
rewritten to `cat-`; candidates are collected per nexus. -/
def find_eval_feature (eval_feature : String) (nexuses : List Nexus) :
    Except String (List Nexus) :=
  let ef := if strStarts "wb-" eval_feature then strReplace eval_feature "wb-" "cat-"
            else eval_feature
  nexuses.foldlM (fun cands n => findEvalStep ef cands n) []

/-- The uniform strategy's candidate list after the optional
`eval_feature` filter (`NgenUniform.__init__` lines 711-715;
`if self.eval_feature:` is Python truthiness, so an empty string skips the
filter). -/
def uniformCandidates (divides : List DivideRow) (nexuses : List String)
    (crosswalk : List (String × String)) (eval_feature : Option String) :
    Except String (List Nexus) := do
  let cands ← build_gauged_hyfeatures_nexuses divides nexuses crosswalk
  match eval_feature with
  | some ef => if ef = "" then pure cands else find_eval_feature ef cands
  | none => pure cands

/-- Tail of `NgenUniform.__init__` (lines 711-720): exactly one candidate
must remain, and it becomes the single evaluation target. -/
def ngenUniformEvalNexus (divides : List DivideRow) (nexuses : List String)
    (crosswalk : List (String × String)) (eval_feature : Option String) :
    Except String Nexus := do
  let cands ← uniformCandidates divides nexuses crosswalk eval_feature
  match cands with
  | [n] => pure n
  | _ => .error singleNexusMsg

/-- The gauged-candidate accumulation of `NgenIndependent.__init__`
(lines 560-589): per catchment, resolve the downstream nexus (fatal when
missing), then the gauge via the `cat`-to-`wb` prefix transform with a
direct-id fallback; only gauged nexuses enter the candidate list. -/
def independentGaugedNexuses (catchments : List DivideRow) (nexusIds : List String)
    (xwalk : List (String × String)) : Except String (List Nexus) :=
  catchments.foldlM (fun acc row => do
    if row.toid ∈ nexusIds then
      let nwis := (xwalkLookup xwalk (strReplace row.divide_id "cat" "wb")).orElse
        fun _ => xwalkLookup xwalk row.divide_id
      match nwis with
      | some gage => pure (acc ++ [Nexus.mk row.toid (some gage) [Catchment.mk row.divide_id]])
      | none => pure acc
    else
      Except.error ("No suitable nexus found for catchment " ++ row.divide_id)) []

/-- The `eval_feature` scan of `NgenIndependent.__init__` (lines 591-597):
find the first candidate whose upstream flowpath id equals the feature and
keep only it; when no candidate matches, the full list is kept.  An empty
flowpath selection raises (`iloc[0]` on an empty frame). -/
def independentFeatureScan (ef : String) (flowpaths : List FlowpathRow)
    (full : List Nexus) : List Nexus → Except String (List Nexus)
  | [] => .ok full
  | n :: rest =>
    match (flowpaths.filter fun w => w.toid == n.id).head? with
    | none => .error "single positional indexer is out-of-bounds"
    | some w => if w.id = ef then .ok [n] else independentFeatureScan ef flowpaths full rest

/-- The independent strategy's candidate list after the optional
`eval_feature` scan. -/
def independentCandidates (catchments : List DivideRow) (nexusIds : List String)
    (xwalk : List (String × String)) (flowpaths : List FlowpathRow)
    (eval_feature : Option String) : Except String (List Nexus) := do
  let evalNexus ← independentGaugedNexuses catchments nexusIds xwalk
  match eval_feature with
  | some ef => if ef = "" then pure evalNexus
               else independentFeatureScan ef flowpaths evalNexus evalNexus
  | none => pure evalNexus

/-- Tail of `NgenIndependent.__init__` (lines 591-601): exactly one
candidate must remain, and it becomes the evaluation nexus of the single
`CalibrationSet` target. -/
def ngenIndependentEvalNexus (catchments : List DivideRow) (nexusIds : List String)
    (xwalk : List (String × String)) (flowpaths : List FlowpathRow)
    (eval_feature : Option String) : Except String Nexus := do
  let cands ← independentCandidates catchments nexusIds xwalk flowpaths eval_feature
  match cands with
  | [n] => pure n
  | _ => .error singleNexusMsg

/-- The per-catchment target construction of `NgenExplicit.__init__`
(lines 471-504): for every catchment whose realization declares
calibration parameters, resolve the hydrofabric row (silently skipped
when absent), the gauge (fatal when absent) and the downstream nexus
(fatal when absent); each target pairs the catchment id with its single
evaluation nexus.  `cfgs` lists `(id, hasattr(catchment, calibration))`
in realization order. -/
def ngenExplicitTargets (cfgs : List (String × Bool)) (divides : List DivideRow)
    (nexusIds : List String) (xwalk : List (String × String)) :
    Except String (List (String × Nexus)) :=
  cfgs.foldlM (fun acc idHas => do
    if idHas.2 then
      match divideLookup divides idHas.1 with
      | none => pure acc
      | some fabric =>
        match xwalkLookup xwalk idHas.1 with
        | none =>
          Except.error ("Cannot establish mapping of catchment " ++ idHas.1 ++
            " to nwis location in cross walk")
        | some nwis =>
          if fabric.toid ∈ nexusIds then
            pure (acc ++ [(idHas.1, Nexus.mk fabric.toid (some nwis) [Catchment.mk idHas.1])])
          else
            Except.error ("No suitable nexus found for catchment " ++ idHas.1)
    else pure acc) []

/-! ## Concrete instances used by the claim theorems -/

/-- Two models declaring the same parameter name. -/
def c1Params : List (String × List Parameter) :=
  [("NoahOWP", [⟨"x", 0, 1, 0⟩]), ("CFE", [⟨"x", 0, 1, 0⟩])]

/-- A two-catchment watershed: each catchment drains to its own nexus. -/
def c2Divides : List DivideRow := [⟨"cat-1", "nex-1"⟩, ⟨"cat-2", "nex-2"⟩]

def c2NexusIds : List String := ["nex-1", "nex-2"]

/-- Exactly one gauged flowpath. -/
def c2XwalkOne : List (String × String) := [("wb-1", "08279500")]

/-- Two gauged flowpaths. -/
def c2XwalkTwo : List (String × String) :=
  [("wb-1", "08279500"), ("wb-2", "08279600")]

/-- A legacy-style crosswalk keyed directly by catchment id. -/
def c2XwalkCat : List (String × String) := [("cat-1", "08279500")]

/-- A handler whose lookups all fail, with the id in the message. -/
def c4Fn : OutputFn := fun i => .error ("handler failure " ++ toString i)

def c4Nexus : Nexus := ⟨"nex-9", none, [⟨"cat-1"⟩]⟩

/-- Constant series 1.0 / 2.0 / 3.0 for waterbody ids 1 / 2 / 3. -/
def c6Fn : OutputFn := fun i =>
  if i = 1 then .ok [(3600, some 1), (7200, some 1), (10800, some 1)]
  else if i = 2 then .ok [(3600, some 2), (7200, some 2), (10800, some 2)]
  else if i = 3 then .ok [(3600, some 3), (7200, some 3), (10800, some 3)]
  else .ok []

def c6Nexus : Nexus := ⟨"nex-9", none, [⟨"cat-1"⟩, ⟨"cat-2"⟩, ⟨"cat-3"⟩]⟩

def c6Series (c : Catchment) : Series :=
  if c.id = "cat-1" then [(3600, some 1), (7200, some 1), (10800, some 1)]
  else if c.id = "cat-2" then [(3600, some 2), (7200, some 2), (10800, some 2)]
  else [(3600, some 3), (7200, some 3), (10800, some 3)]

/-- A 10-hour simulation with an evaluation window ending at t=7200s. -/
def c8St : TrouteOutputState :=
  ⟨"flowveldepth_Ngen.csv", true, none, false, ⟨⟨0, 36000, 3600⟩, none⟩,
    some ⟨some 0, some 7200⟩, none⟩

def c8Fn : OutputFn := fun i =>
  if i = 1 then .ok [(3600, some 1), (10800, some 2)] else .ok []

def c8Nexus : Nexus := ⟨"nex-9", none, [⟨"cat-1"⟩]⟩

/-- A two-hour simulation whose routing series holds two samples inside
the first hourly bucket. -/
def c8wSt : TrouteOutputState :=
  ⟨"flowveldepth_Ngen.csv", true, none, false, ⟨⟨0, 7200, 3600⟩, none⟩, none, none⟩

def c8wFn : OutputFn := fun i =>
  if i = 1 then .ok [(3600, some 1), (5400, some 3), (7200, some 5)] else .ok []

def c8wNexus : Nexus := ⟨"nex-8", none, [⟨"cat-1"⟩]⟩

/-- A state whose routing output file is absent. -/
def c10St : TrouteOutputState :=
  ⟨"flowveldepth_Ngen.csv", false, none, false, ⟨⟨0, 3600, 3600⟩, none⟩, none, none⟩

/-! ## Helper lemmas on the series model -/

theorem mem_tsInsert {t a : Nat} {l : List Nat} : t ∈ tsInsert a l ↔ t = a ∨ t ∈ l := by
  induction l with
  | nil => simp [tsInsert]
  | cons x xs ih =>
    simp only [tsInsert]
    split_ifs with h1 h2
    · simp [List.mem_cons]
    · subst h2
      simp [List.mem_cons]
    · simp [List.mem_cons, ih]
      tauto

theorem mem_tsUnion {t : Nat} {xs ys : List Nat} :
    t ∈ tsUnion xs ys ↔ t ∈ xs ∨ t ∈ ys := by
  have key : ∀ l : List Nat, t ∈ l.foldr tsInsert [] ↔ t ∈ l := by
    intro l
    induction l with
    | nil => simp
    | cons a l ih => simp [List.foldr, mem_tsInsert, ih]
  unfold tsUnion
  rw [key, List.mem_append]

theorem seriesLookup_eq_none {s : Series} {t : Nat} :
    seriesLookup s t = none ↔ t ∉ s.map Prod.fst := by
  induction s with
  | nil => simp [seriesLookup]
  | cons q rest ih =>
    by_cases h : q.1 = t
    · simp [seriesLookup, List.find?_cons, h]
    · have hb : (q.1 == t) = false := by simpa using h
      have hred : seriesLookup (q :: rest) t = seriesLookup rest t := by
        simp [seriesLookup, List.find?_cons, hb]
      rw [hred, ih]
      simp only [List.map_cons, List.mem_cons]
      constructor
      · intro hn hor
        rcases hor with he | hm
        · exact h he.symm
        · exact hn hm
      · intro hn hm
        exact hn (Or.inr hm)

theorem seriesLookup_map_ts (ts : List Nat) (g : Nat → Option Rat) (t : Nat) :
    seriesLookup (ts.map fun u => (u, g u)) t = if t ∈ ts then some (g t) else none := by
  induction ts with
  | nil => simp [seriesLookup]
  | cons u rest ih =>
    by_cases h : u = t
    · subst h
      simp [seriesLookup, List.find?_cons]
    · have hb : (u == t) = false := by simpa using h
      have hred : seriesLookup ((u :: rest).map fun v => (v, g v)) t =
          seriesLookup (rest.map fun v => (v, g v)) t := by
        simp [seriesLookup, List.find?_cons, hb]
      rw [hred, ih]
      have hiff : (t ∈ u :: rest) ↔ (t ∈ rest) := by
        simp only [List.mem_cons]
        constructor
        · intro hor
          rcases hor with he | hm
          · exact absurd he.symm h
          · exact hm
        · exact Or.inr
      rw [if_congr hiff rfl rfl]

theorem seriesLookup_seriesAdd (a b : Series) (t : Nat) :
    seriesLookup (seriesAdd a b) t =
      combineLookup (seriesLookup a t) (seriesLookup b t) := by
  unfold seriesAdd
  rw [seriesLookup_map_ts]
  by_cases ha : seriesLookup a t = none <;> by_cases hb : seriesLookup b t = none
  · rw [if_neg, ha, hb]
    · rfl
    · rw [mem_tsUnion]
      push_neg
      exact ⟨seriesLookup_eq_none.mp ha, seriesLookup_eq_none.mp hb⟩
  · have htb : t ∈ b.map Prod.fst := by
      by_contra hc
      exact hb (seriesLookup_eq_none.mpr hc)
    rw [if_pos (mem_tsUnion.mpr (Or.inr htb)), ha]
    cases hbv : seriesLookup b t with
    | none => exact absurd hbv hb
    | some v => rfl
  · have hta : t ∈ a.map Prod.fst := by
      by_contra hc
      exact ha (seriesLookup_eq_none.mpr hc)
    rw [if_pos (mem_tsUnion.mpr (Or.inl hta)), hb]
    cases hav : seriesLookup a t with
    | none => exact absurd hav ha
    | some v => rfl
  · have hta : t ∈ a.map Prod.fst := by
      by_contra hc
      exact ha (seriesLookup_eq_none.mpr hc)
    rw [if_pos (mem_tsUnion.mpr (Or.inl hta))]
    cases hav : seriesLookup a t with
    | none => exact absurd hav ha
    | some v =>
      cases hbv : seriesLookup b t with
      | none => exact absurd hbv hb
      | some w => rfl

/-- The summation loop accumulates the pandas-aligned elementwise sum of
every listed catchment's series (pointwise over lookups). -/
theorem sumContributing_spec (fn : OutputFn) (σ : Catchment → Series) :
    ∀ (cats : List Catchment) (acc : Series),
      (∀ c ∈ cats, ∃ i, idSuffixInt c.id = .ok i ∧ fn i = .ok (σ c) ∧ (σ c).isEmpty = false) →
      ∃ s, sumContributing fn acc cats = .ok s ∧
        ∀ t, seriesLookup s t =
          cats.foldl (fun a c => combineLookup a (seriesLookup (σ c) t)) (seriesLookup acc t) := by
  intro cats
  induction cats with
  | nil => exact fun acc _ => ⟨acc, rfl, fun t => rfl⟩
  | cons c rest ih =>
    intro acc h
    obtain ⟨i, hi, hfn, hne⟩ := h c (List.mem_cons_self c rest)
    obtain ⟨s, hs, hlook⟩ :=
      ih (seriesAdd acc (σ c)) (fun d hd => h d (List.mem_cons_of_mem c hd))
    refine ⟨s, ?_, ?_⟩
    · simp [sumContributing, hi, hfn, hne, Bind.bind, Except.bind, hs]
    · intro t
      rw [List.foldl_cons, ← seriesLookup_seriesAdd]
      exact hlook t

/-- C6: for a confluence point with multiple contributing catchments the
extracted series is the elementwise sum of every contributing catchment's
series, each looked up by the numeric suffix of the catchment id; in
particular three contributing catchments with constant series 1.0, 2.0
and 3.0 yield the constant series 6.0 over the overlapping timestamps. -/
theorem confluence_flows_elementwise_sum :
    (∀ (fn : OutputFn) (nexus : Nexus) (c0 : Catchment) (rest : List Catchment)
        (σ : Catchment → Series),
      nexus.contributing_catchments = c0 :: rest →
      (∀ c ∈ c0 :: rest,
        ∃ i, idSuffixInt c.id = .ok i ∧ fn i = .ok (σ c) ∧ (σ c).isEmpty = false) →
      ∃ s, tryGetSeries fn nexus = .ok s ∧
        ∀ t, seriesLookup s t =
          rest.foldl (fun a c => combineLookup a (seriesLookup (σ c) t))
            (seriesLookup (σ c0) t)) ∧
    tryGetSeries c6Fn c6Nexus = .ok [(3600, some 6), (7200, some 6), (10800, some 6)] := by
  constructor
  · intro fn nexus c0 rest σ hcc h
    obtain ⟨i0, hi0, hfn0, hne0⟩ := h c0 (List.mem_cons_self c0 rest)
    obtain ⟨s, hs, hlook⟩ := sumContributing_spec fn σ rest (σ c0)
      (fun d hd => h d (List.mem_cons_of_mem c0 hd))
    have hagg : aggregateContributing fn nexus.contributing_catchments = .ok s := by
      rw [hcc]
      simp [aggregateContributing, hi0, hfn0, hne0, Bind.bind, Except.bind, hs]
    refine ⟨s, ?_, hlook⟩
    unfold tryGetSeries
    rw [hagg]
  · have e1 : idSuffixInt "cat-1" = .ok 1 := by decide
    have e2 : idSuffixInt "cat-2" = .ok 2 := by decide
    have e3 : idSuffixInt "cat-3" = .ok 3 := by decide
    norm_num [tryGetSeries, c6Nexus, c6Fn, aggregateContributing, sumContributing,
      e1, e2, e3, Bind.bind, Except.bind, seriesAdd, tsUnion, tsInsert, seriesLookup,
      combineVals]

/-- Witness for C6 at the three-catchment instance. -/
theorem confluence_flows_elementwise_sum_witness :
    ∃ s, tryGetSeries c6Fn c6Nexus = .ok s ∧
      ∀ t, seriesLookup s t =
        [Catchment.mk "cat-2", Catchment.mk "cat-3"].foldl
          (fun a c => combineLookup a (seriesLookup (c6Series c) t))
          (seriesLookup (c6Series ⟨"cat-1"⟩) t) :=
  confluence_flows_elementwise_sum.1 c6Fn c6Nexus ⟨"cat-1"⟩ [⟨"cat-2"⟩, ⟨"cat-3"⟩] c6Series
    (by decide)
    (by
      intro c hc
      simp only [List.mem_cons, List.not_mem_nil, or_false] at hc
      rcases hc with rfl | rfl | rfl
      · exact ⟨1, by decide, by decide, by decide⟩
      · exact ⟨2, by decide, by decide, by decide⟩
      · exact ⟨3, by decide, by decide, by decide⟩)

/-- C4: when the per-catchment aggregation path fails, extraction retries
using the confluence point's own id; when that fallback also fails, the
error surfaced to the caller is the original per-catchment error, and when
the fallback succeeds its series is the result. -/
theorem output_fallback_surfaces_original_error (fn : OutputFn) (nexus : Nexus) (e : String)
    (hagg : aggregateContributing fn nexus.contributing_catchments = .error e) :
    (∀ e2, nexusDirect fn nexus = .error e2 → tryGetSeries fn nexus = .error e) ∧
    (∀ s, nexusDirect fn nexus = .ok s → tryGetSeries fn nexus = .ok s) := by
  constructor <;> intro x hx <;> unfold tryGetSeries <;> rw [hagg, hx]

/-- Witness for C4: every lookup fails; the per-catchment error (id 1) is
surfaced, not the fallback's (id 9). -/
theorem output_fallback_surfaces_original_error_witness :
    tryGetSeries c4Fn c4Nexus = .error "handler failure 1" :=
  (output_fallback_surfaces_original_error c4Fn c4Nexus "handler failure 1" (by decide)).1
    "handler failure 9" (by decide)

/-- C10: when the routing output file does not exist and no validation
output file is configured and present, `get_output` returns None rather
than raising, for every nexus. -/
theorem missing_routing_output_yields_none (st : TrouteOutputState)
    (mkFn : String → Except String OutputFn) (nexus : Nexus)
    (hout : st.output_file_present = false)
    (hval : st.settings = none ∨ st.validation_present = false) :
    get_output st mkFn nexus = .ok none := by
  unfold get_output selectOutputFile
  rcases hsettings : st.settings with _ | vpath
  · simp [hout]
  · rcases hval with hc | hv
    · rw [hsettings] at hc
      exact absurd hc (by simp)
    · simp [hv, hout]

/-- Witness for C10 at a concrete state with the output file absent. -/
theorem missing_routing_output_yields_none_witness :
    get_output c10St (fun _ => .error "unused") ⟨"nex-1", none, []⟩ = .ok none :=
  missing_routing_output_yields_none c10St (fun _ => .error "unused") ⟨"nex-1", none, []⟩
    rfl (Or.inl rfl)

/-- C8 counterexample: with an evaluation window ending at 7200s the
comparison series is sliced to the evaluation-interval end, not the
simulation end (36000s); slicing to the simulation end would have kept
the 10800s sample. -/
theorem slice_uses_eval_interval_end :
    get_output c8St (fun _ => .ok c8Fn) c8Nexus = .ok (some [(3600, some 1)]) ∧
    resample1hFirst (sliceClosed (0 + 3600) 36000 [(3600, some 1), (10800, some 2)]) =
      [(3600, some 1), (7200, none), (10800, some 2)] ∧
    get_output c8St (fun _ => .ok c8Fn) c8Nexus ≠
      .ok (some (resample1hFirst (sliceClosed (0 + 3600) 36000
        [(3600, some 1), (10800, some 2)]))) := by
  refine ⟨by decide, by decide, by decide⟩

/-- C8 (amended): the comparison series is the extracted series sliced to
the closed interval from simulation start plus one nominal output interval
up to the end of the selected evaluation interval (the simulation end when
no evaluation window is configured), then resampled to a one-hour cadence
taking the first sample per bucket. -/
theorem get_output_slice_resample_spec (st : TrouteOutputState)
    (mkFn : String → Except String OutputFn) (nexus : Nexus) (file : String)
    (iv : Except String (Nat × Nat)) (se : Nat × Nat) (fn : OutputFn) (ds : Series)
    (hsel : selectOutputFile st = some (file, iv)) (hiv : iv = .ok se)
    (hfn : mkFn file = .ok fn) (hds : tryGetSeries fn nexus = .ok ds) :
    get_output st mkFn nexus = .ok (some (resample1hFirst (sliceClosed
      (st.ngen_realization.time.start_time + st.ngen_realization.time.output_interval)
      se.2 ds))) := by
  unfold get_output
  rw [hsel]
  subst hiv
  simp [Bind.bind, Except.bind, hfn, hds]

/-- Witness for C8 (amended): the first hourly bucket holds samples 1.0
and 3.0 and the resampled value is the first (1.0), not the average. -/
theorem get_output_slice_resample_spec_witness :
    get_output c8wSt (fun _ => .ok c8wFn) c8wNexus =
      .ok (some [(3600, some 1), (7200, some 5)]) := by
  have h := get_output_slice_resample_spec c8wSt (fun _ => .ok c8wFn) c8wNexus
    "flowveldepth_Ngen.csv" (.ok (0, 7200)) (0, 7200) c8wFn
    [(3600, some 1), (5400, some 3), (7200, some 5)] (by decide) rfl rfl (by decide)
  rw [h]
  decide

/-- C9: a configuration whose ngen realization sets `output_root` is
rejected by the construction-time model validator; with a hydrofabric
input provided the rejection is the unsupported-feature error, and with
`output_root` unset the validator passes. -/
theorem output_root_rejected_at_validation :
    (∀ (hf cats nex xw : Option String) (r : NgenRealizationM), r.output_root.isSome →
      ∃ e, validate_model hf cats nex xw (some r) = .error e) ∧
    (∀ (hf cats nex xw : Option String) (r : NgenRealizationM), r.output_root.isSome →
      hf ≠ none → validate_model hf cats nex xw (some r) = .error unsupportedOutputRootMsg) ∧
    (∀ (hf cats nex xw : Option String) (r : NgenRealizationM), r.output_root = none →
      hf ≠ none → validate_model hf cats nex xw (some r) = .ok ()) := by
  refine ⟨?_, ?_, ?_⟩
  · intro hf cats nex xw r hr
    rcases hroot : r.output_root with _ | p
    · rw [hroot] at hr
      simp at hr
    · by_cases hall : hf = none ∧ cats = none ∧ nex = none ∧ xw = none
      · exact ⟨hydrofabricMsg, by
          simp [validate_model, verify_hydrofabric, hall, Bind.bind, Except.bind]⟩
      · exact ⟨unsupportedOutputRootMsg, by
          simp [validate_model, verify_hydrofabric, verify_ngen_realization, hall,
            Bind.bind, Except.bind, hroot]⟩
  · intro hf cats nex xw r hr hhf
    rcases hroot : r.output_root with _ | p
    · rw [hroot] at hr
      simp at hr
    · have hall : ¬(hf = none ∧ cats = none ∧ nex = none ∧ xw = none) := by
        intro hc
        exact hhf hc.1
      simp [validate_model, verify_hydrofabric, verify_ngen_realization, hall,
        Bind.bind, Except.bind, hroot]
  · intro hf cats nex xw r hroot hhf
    have hall : ¬(hf = none ∧ cats = none ∧ nex = none ∧ xw = none) := by
      intro hc
      exact hhf hc.1
    simp [validate_model, verify_hydrofabric, verify_ngen_realization, hall,
      Bind.bind, Except.bind, hroot]

/-- Witness for C9 at a concrete configuration with `output_root` set. -/
theorem output_root_rejected_at_validation_witness :
    validate_model (some "hydrofabric.gpkg") none none none
      (some ⟨⟨0, 36000, 3600⟩, some "outdir"⟩) = .error unsupportedOutputRootMsg :=
  output_root_rejected_at_validation.2.1 (some "hydrofabric.gpkg") none none none
    ⟨⟨0, 36000, 3600⟩, some "outdir"⟩ (by decide) (by decide)

/-- C5: the routing-native timestep divides the simulation window (as
nominal interval times nominal step count) by the observed routing row
count; a non-zero remainder of the nominal interval by the
routing-rows-per-interval ratio is a fatal assertion; for a 10-hour
window with 3600s output interval and 40 routing rows the step is exactly
900 seconds. -/
theorem routing_timestep_division_spec :
    routing_timestep_size_s 40 ⟨0, 36000, 3600⟩ = .ok 900 ∧
    (∀ (n : Nat) (t : RTime), ngenNTs t ≠ 0 → routingRatio n t ≠ 0 → routingRem n t ≠ 0 →
      routing_timestep_size_s n t =
        .error "routing timestep is not evenly divisible by ngen_timesteps") ∧
    (∀ (n : Nat) (t : RTime) (r : Int), routing_timestep_size_s n t = .ok r →
      (r : Rat) * (n : Rat) = (t.output_interval : Rat) * (ngenNTs t : Rat)) := by
  refine ⟨?_, ?_, ?_⟩
  · norm_num [routing_timestep_size_s, ngenNTs, routingRatio, routingQuot, routingRem]
  · intro n t h1 h2 h3
    simp [routing_timestep_size_s, h1, h2, h3]
  · intro n t r h
    unfold routing_timestep_size_s at h
    split_ifs at h with h1 h2 h3
    have hq : routingQuot n t = r := Except.ok.inj h
    have hrem := h3
    unfold routingRem routingRatio at hrem
    have hnn : ((ngenNTs t : Nat) : Rat) ≠ 0 := Nat.cast_ne_zero.mpr h1
    rw [hq] at hrem
    field_simp at hrem
    linear_combination -hrem

/-- Witness for C5: 7 routing rows over a 10-hour window do not evenly
divide the 3600s nominal interval, so the assertion fires. -/
theorem routing_timestep_division_spec_witness :
    routing_timestep_size_s 7 ⟨0, 36000, 3600⟩ =
      .error "routing timestep is not evenly divisible by ngen_timesteps" :=
  routing_timestep_division_spec.2.1 7 ⟨0, 36000, 3600⟩
    (by norm_num [ngenNTs])
    (by norm_num [routingRatio, ngenNTs])
    (by norm_num [routingRem, routingRatio, routingQuot, ngenNTs])

/-- C3: schema detection maps the three known table-name pairs to the
three distinct generations, and errors exactly when fewer than two
candidate tables are present or the set matches none of the pairs. -/
theorem hf_version_detection_spec (tables : List String) :
    (hf_version tables = .ok .HF_2_0 ↔
      tables.toFinset = {"flowpaths", "flowpath_attributes"}) ∧
    (hf_version tables = .ok .HF_2_1 ↔
      tables.toFinset = {"flowlines", "flowpath-attributes"}) ∧
    (hf_version tables = .ok .HF_2_2 ↔
      tables.toFinset = {"flowpaths", "flowpath-attributes"}) ∧
    ((∃ e, hf_version tables = .error e) ↔
      tables.toFinset.card < 2 ∨
      (tables.toFinset ≠ {"flowpaths", "flowpath_attributes"} ∧
       tables.toFinset ≠ {"flowlines", "flowpath-attributes"} ∧
       tables.toFinset ≠ {"flowpaths", "flowpath-attributes"})) := by
  have hc1 : ({"flowpaths", "flowpath_attributes"} : Finset String).card = 2 := by decide
  have hc2 : ({"flowlines", "flowpath-attributes"} : Finset String).card = 2 := by decide
  have hc3 : ({"flowpaths", "flowpath-attributes"} : Finset String).card = 2 := by decide
  unfold hf_version hf_version_of
  split_ifs with h1 h2 h3 h4
  · refine ⟨⟨fun h => by simp at h, fun h => ?_⟩, ⟨fun h => by simp at h, fun h => ?_⟩,
      ⟨fun h => by simp at h, fun h => ?_⟩,
      ⟨fun _ => Or.inl h1, fun _ => ⟨_, rfl⟩⟩⟩
    · rw [h, hc1] at h1
      omega
    · rw [h, hc2] at h1
      omega
    · rw [h, hc3] at h1
      omega
  · rw [h2]
    refine ⟨by decide, by decide, by decide, ⟨fun hex => ?_, fun hor => ?_⟩⟩
    · obtain ⟨e, he⟩ := hex
      simp at he
    · rcases hor with hlt | ⟨hne, _, _⟩
      · exact absurd hlt (by decide)
      · exact absurd rfl hne
  · rw [h3]
    refine ⟨by decide, by decide, by decide, ⟨fun hex => ?_, fun hor => ?_⟩⟩
    · obtain ⟨e, he⟩ := hex
      simp at he
    · rcases hor with hlt | ⟨_, hne, _⟩
      · exact absurd hlt (by decide)
      · exact absurd rfl hne
  · rw [h4]
    refine ⟨by decide, by decide, by decide, ⟨fun hex => ?_, fun hor => ?_⟩⟩
    · obtain ⟨e, he⟩ := hex
      simp at he
    · rcases hor with hlt | ⟨_, _, hne⟩
      · exact absurd hlt (by decide)
      · exact absurd rfl hne
  · exact ⟨⟨fun h => by simp at h, fun h => absurd h h2⟩,
      ⟨fun h => by simp at h, fun h => absurd h h3⟩,
      ⟨fun h => by simp at h, fun h => absurd h h4⟩,
      ⟨fun _ => Or.inr ⟨h2, h3, h4⟩, fun _ => ⟨_, rfl⟩⟩⟩

/-- Witness for C3: an order-independent table set detects generation
2.0. -/
theorem hf_version_detection_spec_witness :
    hf_version ["flowpath_attributes", "flowpaths"] = .ok .HF_2_0 :=
  (hf_version_detection_spec ["flowpath_attributes", "flowpaths"]).1.mpr (by decide)

/-- Unfolding of the parameter table over a cons cell. -/
theorem params_as_df_cons (kv : String × List Parameter)
    (rest : List (String × List Parameter)) :
    params_as_df (kv :: rest) =
      (paramRowsOf kv.1 kv.2).map (fun r => { r with p := r.param }) ++ params_as_df rest := by
  simp [params_as_df]

/-- Every row of a single-model block indexes by its parameter name. -/
theorem params_as_df_named_p (params : List (String × List Parameter)) (name : String) :
    ∀ r ∈ params_as_df_named params name, r.p = r.param := by
  intro r hr
  simp only [params_as_df_named, List.mem_map] at hr
  obtain ⟨r0, _, rfl⟩ := hr
  rfl

/-- C1 counterexample: flattening two distinct models that both declare a
parameter named x yields two rows whose index key `p` coincides: the row
index is the bare parameter name, not the composite (model, parameter)
key, so the two parameters are not separately addressable by index. -/
theorem param_table_index_collision :
    ∃ r1 r2, r1 ∈ map_params_to_realization c1Params (.multiBMI ["NoahOWP", "CFE"]) ∧
      r2 ∈ map_params_to_realization c1Params (.multiBMI ["NoahOWP", "CFE"]) ∧
      r1.model ≠ r2.model ∧ r1.param = r2.param ∧ r1.p = r2.p := by
  refine ⟨⟨"x", "x", 0, 1, 0, "NoahOWP"⟩, ⟨"x", "x", 0, 1, 0, "CFE"⟩, ?_, ?_, ?_, ?_, ?_⟩ <;>
    decide

/-- C1 (amended): the flattened parameter table indexes every row by the
bare parameter name (`p = param`), in both the combined table and the
per-realization table; the originating model is retained per row as a
separate column, so the rows are exactly the declared (model, parameter)
pairs in declaration order. -/
theorem param_table_index_is_param_name (params : List (String × List Parameter)) :
    (∀ r ∈ params_as_df params, r.p = r.param) ∧
    (∀ f, ∀ r ∈ map_params_to_realization params f, r.p = r.param) ∧
    (params_as_df params).map (fun r => (r.model, r.param)) =
      (params.map fun kv => kv.2.map fun s => (kv.1, s.name)).flatten := by
  refine ⟨?_, ?_, ?_⟩
  · intro r hr
    simp only [params_as_df, List.mem_map] at hr
    obtain ⟨r0, _, rfl⟩ := hr
    rfl
  · intro f r hr
    cases f with
    | multiBMI modules =>
      simp only [map_params_to_realization, List.mem_flatten, List.mem_map] at hr
      obtain ⟨block, ⟨m, _, rfl⟩, hrb⟩ := hr
      exact params_as_df_named_p params m r hrb
    | single n =>
      exact params_as_df_named_p params n r hr
  · induction params with
    | nil => rfl
    | cons kv rest ih =>
      rw [params_as_df_cons, List.map_append, ih]
      simp [paramRowsOf, List.map_map]

/-- Witness for C1 (amended) at a concrete row of the two-model table. -/
theorem param_table_index_is_param_name_witness :
    (⟨"x", "x", 0, 1, 0, "NoahOWP"⟩ : ParamRow).p =
      (⟨"x", "x", 0, 1, 0, "NoahOWP"⟩ : ParamRow).param :=
  (param_table_index_is_param_name c1Params).1 ⟨"x", "x", 0, 1, 0, "NoahOWP"⟩ (by decide)

/-- C2: for the independent and uniform strategies, construction succeeds
exactly when, after optional evaluation-feature filtering, exactly one
gauged candidate confluence point remains, the success value being that
single evaluation target; zero or several candidates always raise (never
silently resolved); concretely, one gauged nexus succeeds and zero or two
raise for both strategies, and the explicit strategy builds one
single-nexus target per opted-in gauged catchment, raising when the gauge
resolution of an opted-in catchment fails. -/
theorem construction_requires_unique_eval_nexus :
    (∀ d nIds xw ef n, ngenUniformEvalNexus d nIds xw ef = .ok n ↔
      uniformCandidates d nIds xw ef = .ok [n]) ∧
    (∀ c nIds xw fp ef n, ngenIndependentEvalNexus c nIds xw fp ef = .ok n ↔
      independentCandidates c nIds xw fp ef = .ok [n]) ∧
    ngenUniformEvalNexus c2Divides c2NexusIds c2XwalkOne none =
      .ok ⟨"nex-1", some "08279500", [⟨"cat-1"⟩]⟩ ∧
    ngenUniformEvalNexus c2Divides c2NexusIds [] none = .error singleNexusMsg ∧
    ngenUniformEvalNexus c2Divides c2NexusIds c2XwalkTwo none = .error singleNexusMsg ∧
    ngenIndependentEvalNexus c2Divides c2NexusIds c2XwalkOne [] none =
      .ok ⟨"nex-1", some "08279500", [⟨"cat-1"⟩]⟩ ∧
    ngenIndependentEvalNexus c2Divides c2NexusIds [] [] none = .error singleNexusMsg ∧
    ngenIndependentEvalNexus c2Divides c2NexusIds c2XwalkTwo [] none = .error singleNexusMsg ∧
    ngenExplicitTargets [("cat-1", true), ("cat-2", false)] c2Divides c2NexusIds c2XwalkCat =
      .ok [("cat-1", ⟨"nex-1", some "08279500", [⟨"cat-1"⟩]⟩)] ∧
    ngenExplicitTargets [("cat-1", true)] c2Divides c2NexusIds [] =
      .error "Cannot establish mapping of catchment cat-1 to nwis location in cross walk" := by
  refine ⟨?_, ?_, by decide, by decide, by decide, by decide, by decide, by decide,
    by decide, by decide⟩
  · intro d nIds xw ef n
    unfold ngenUniformEvalNexus
    cases h : uniformCandidates d nIds xw ef with
    | error e => simp [h, Bind.bind, Except.bind]
    | ok cs =>
      simp only [h, Bind.bind, Except.bind]
      cases cs with
      | nil => simp
      | cons a tail =>
        cases tail with
        | nil => simp [Pure.pure, Except.pure]
        | cons b t2 => simp
  · intro c nIds xw fp ef n
    unfold ngenIndependentEvalNexus
    cases h : independentCandidates c nIds xw fp ef with
    | error e => simp [h, Bind.bind, Except.bind]
    | ok cs =>
      simp only [h, Bind.bind, Except.bind]
      cases cs with
      | nil => simp
      | cons a tail =>
        cases tail with
        | nil => simp [Pure.pure, Except.pure]
        | cons b t2 => simp

/-- Witness for C2: the uniform iff at the one-gauged-nexus watershed. -/
theorem construction_requires_unique_eval_nexus_witness :
    ngenUniformEvalNexus c2Divides c2NexusIds c2XwalkOne none =
      .ok ⟨"nex-1", some "08279500", [⟨"cat-1"⟩]⟩ :=
  (construction_requires_unique_eval_nexus.1 c2Divides c2NexusIds c2XwalkOne none
    ⟨"nex-1", some "08279500", [⟨"cat-1"⟩]⟩).mpr (by decide)

theorem listIsPrefixOf_self (l : List Char) : l.isPrefixOf l = true := by
  induction l with
  | nil => rfl
  | cons c rest ih => simp [List.isPrefixOf, ih]

theorem listHasSub_append (p a : List Char) : listHasSub p (a ++ p) = true := by
  induction a with
  | nil =>
    cases p with
    | nil => rfl
    | cons c rest => simp [listHasSub, listIsPrefixOf_self]
  | cons c a ih => simp [listHasSub, ih]

theorem strHasSub_append (pre s : String) : strHasSub (pre ++ s) s = true := by
  unfold strHasSub
  rw [String.data_append]
  exact listHasSub_append _ _

/-- C7 counterexample: for the output path out.xyz the unknown-extension
error message names only the extension, not the offending path. -/
theorem unknown_extension_error_omits_path :
    output_handler_factory "out.xyz" "" =
      .error "unsupported t-route output filetype: .xyz" ∧
    strHasSub "unsupported t-route output filetype: .xyz" "out.xyz" = false :=
  ⟨by decide, by decide⟩

/-- C7 (amended): detection branches first on the lower-cased extension,
then for csv on the header literal, with no silent fallback: an unknown
extension raises a RuntimeError naming the offending extension, and an
unrecognized csv header raises a RuntimeError naming the offending
path. -/
theorem output_format_detection_cascade (path header : String) :
    (strLower (pathSuffix path) ≠ ".csv" → strLower (pathSuffix path) ≠ ".nc" →
      strLower (pathSuffix path) ≠ ".parquet" →
      output_handler_factory path header =
        .error ("unsupported t-route output filetype: " ++ pathSuffix path)) ∧
    (strLower (pathSuffix path) = ".csv" → strStarts csvV1Header header = false →
      strHasSub header "t0" = false → strHasSub header "current_time" = false →
      output_handler_factory path header =
        .error ("could not parse t-route csv output file: " ++ path) ∧
      strHasSub ("could not parse t-route csv output file: " ++ path) path = true) ∧
    (strLower (pathSuffix path) = ".csv" → strStarts csvV1Header header = true →
      output_handler_factory path header = .ok .csv_output_v1) ∧
    (strLower (pathSuffix path) = ".csv" → strStarts csvV1Header header = false →
      strHasSub header "t0" = true →
      output_handler_factory path header = .ok .stream_csv_v1) ∧
    (strLower (pathSuffix path) = ".csv" → strStarts csvV1Header header = false →
      strHasSub header "t0" = false → strHasSub header "current_time" = true →
      output_handler_factory path header = .ok .stream_csv_v2) ∧
    (strLower (pathSuffix path) = ".nc" →
      output_handler_factory path header = .ok .netcdf_v1) ∧
    (strLower (pathSuffix path) = ".parquet" →
      output_handler_factory path header = .ok .parquet_v1) := by
  refine ⟨?_, ?_, ?_, ?_, ?_, ?_, ?_⟩
  · intro h1 h2 h3
    simp [output_handler_factory, h1, h2, h3]
  · intro h1 h2 h3 h4
    refine ⟨?_, strHasSub_append _ _⟩
    simp [output_handler_factory, factory_handler_csv, h1, h2, h3, h4]
  · intro h1 h2
    simp [output_handler_factory, factory_handler_csv, h1, h2]
  · intro h1 h2 h3
    simp [output_handler_factory, factory_handler_csv, h1, h2, h3]
  · intro h1 h2 h3 h4
    simp [output_handler_factory, factory_handler_csv, h1, h2, h3, h4]
  · intro h1
    simp [output_handler_factory, h1]
  · intro h1
    by_cases hc : strLower (pathSuffix path) = ".csv"
    · rw [h1] at hc
      exact absurd hc (by decide)
    · simp [output_handler_factory, hc, h1]

/-- Witness for C7 (amended) at a netcdf output path. -/
theorem output_format_detection_cascade_witness :
    output_handler_factory "troute_output.nc" "" = .ok .netcdf_v1 :=
  (output_format_detection_cascade "troute_output.nc" "").2.2.2.2.2.1 (by decide)

end NgenCal
